import Mathlib

/-!
# Patient / blood-pressure form server (`main.go`)

A shallow embedding of the five gin handlers of `main.go` and of the calls
they make on the request context and on the MongoDB collection, followed by
the properties of the handlers.

The collection is an explicit value threaded through every handler.  The
outcome of the driver call a request makes (an `InsertOne` or a `Find` that
reports an error) is an input of the handler, so that both branches of every
`if err != nil` of the source are reachable.
-/

namespace Pressao

/-! ## Data model -/

/-- A `bson.M` as the handlers build and read it: string keys bound to Go
strings, the only values `main.go` ever places in a document.  A nil map
is the empty list. -/
abbrev Document := List (String × String)

/-- The keys of a document, in the order the literal lists them. -/
def Document.keys (d : Document) : List String :=
  d.map Prod.fst

/-- One element of the collection, as a cursor delivers it to
`cursor.Decode`: either bytes that decode to a document, or bytes on which
`Decode` reports the given error. -/
inductive Stored where
  | doc (d : Document)
  | undecodable (err : String)
deriving DecidableEq, Repr

/-- The `patients` collection behind the global `collection` handle: its
elements in store order. -/
abbrev Store := List Stored

/-- What the driver does with the call a request makes: the error
`InsertOne` returns, if any, and the error `Find` returns, if any. -/
structure Env where
  insertErr : Option String
  findErr : Option String
deriving DecidableEq, Repr

/-- The part of `*gin.Context` the handlers read: the fields of the
URL-encoded body, in the order they were sent. -/
structure Context where
  form : List (String × String)
deriving DecidableEq, Repr

/-- The anonymous struct of `userDashboard`, with the fields tagged
`bson:"date"`, `bson:"systolic_pressure"`, `bson:"diastolic_pressure"`. -/
structure Row where
  Date : String
  SystolicPressure : String
  DiastolicPressure : String
deriving DecidableEq, Repr

/-- The values the handlers place in a `gin.H`. -/
inductive HValue where
  | text (s : String)
  | docs (data : List Document)
  | rows (bloodPressureData : List Row)
deriving DecidableEq, Repr

/-- The data bag `gin.H` handed to a template. -/
abbrev H := List (String × HValue)

/-- What a handler writes on the context: `c.HTML`, `c.Redirect`, or the
bare status the recovery middleware of `gin.Default()` sets. -/
inductive Response where
  | html (code : Nat) (name : String) (obj : H)
  | redirect (code : Nat) (location : String)
  | status (code : Nat)
deriving DecidableEq, Repr

/-- How a handler call ends: it returns after writing a response, or it
panics (a Go run-time panic unwinding out of the handler). -/
inductive Outcome where
  | responded (r : Response)
  | panicked (msg : String)
deriving DecidableEq, Repr

/-- Everything observable of one handler call: the collection afterwards,
how the call ended, the lines given to `log.Println`, and the documents
given to `collection.InsertOne`. -/
structure Result where
  store : Store
  outcome : Outcome
  log : List String
  inserted : List Document
deriving DecidableEq, Repr

/-! ## Constants of `net/http` and the Go run time -/

/-- Constant `http.StatusOK`. -/
def StatusOK : Nat := 200

/-- Constant `http.StatusSeeOther`. -/
def StatusSeeOther : Nat := 303

/-- Constant `http.StatusInternalServerError`. -/
def StatusInternalServerError : Nat := 500

/-- The message of the run-time panic raised by a method that reads a
field of a nil pointer receiver. -/
def nilDereference : String :=
  "runtime error: invalid memory address or nil pointer dereference"

/-! ## The request context and the driver -/

/-- Modelled from the spec: gin's `c.PostForm(key)`, absent from the
sources; the value of the first body field named `key`, and the empty
string when the form has no such field. -/
def Context.PostForm (c : Context) (key : String) : String :=
  match c.form.lookup key with
  | some v => v
  | none => ""

/-- Modelled from the spec: the driver's `collection.InsertOne`, absent
from the sources; it returns the error the driver reports and leaves the
collection alone, or appends the one document at the end.  The identifier
it also returns is dropped by both callers. -/
def InsertOne (env : Env) (store : Store) (document : Document) : Store × Option String :=
  match env.insertErr with
  | some e => (store, some e)
  | none => (store ++ [Stored.doc document], none)

/-- The driver's `*mongo.Cursor`: the elements not yet visited. -/
structure Cursor where
  batch : List Stored
deriving DecidableEq, Repr

/-- Modelled from the spec: the driver's `collection.Find` with the empty
filter, absent from the sources; a cursor over every element in store
order.  When the driver reports an error it returns that error and no
cursor (a nil `*mongo.Cursor`). -/
def Find (env : Env) (store : Store) : Option Cursor × Option String :=
  match env.findErr with
  | some e => (none, some e)
  | none => (some ⟨store⟩, none)

/-- Modelled from the spec: `cursor.Decode(&document)` into a `bson.M`,
absent from the sources; a failed decode reports its error and leaves the
freshly declared nil map. -/
def DecodeM (x : Stored) : Document × Option String :=
  match x with
  | Stored.doc d => (d, none)
  | Stored.undecodable e => ([], some e)

/-- The string a tagged struct field receives from a document: the value
bound to the tag, and the zero value when the tag is absent. -/
def fieldOf (d : Document) (tag : String) : String :=
  match d.lookup tag with
  | some v => v
  | none => ""

/-- Modelled from the spec: `cursor.Decode(&document)` into the struct
of `userDashboard`, absent from the sources; every tagged field is read
from the document, other keys are skipped, and a failed decode reports its
error and leaves the zero struct. -/
def DecodeRow (x : Stored) : Row × Option String :=
  match x with
  | Stored.doc d =>
      (⟨fieldOf d "date", fieldOf d "systolic_pressure", fieldOf d "diastolic_pressure"⟩, none)
  | Stored.undecodable e => (⟨"", "", ""⟩, some e)

/-- The effect of `if err != nil { log.Println(err) }` on the log. -/
def logIfErr (log : List String) (err : Option String) : List String :=
  match err with
  | some e => log ++ [e]
  | none => log

/-! ## The handlers -/

/-- Handler `showForm`: renders `form.html` with an empty bag. -/
def showForm (_env : Env) (_c : Context) (store : Store) : Result :=
  { store := store
    outcome := Outcome.responded (Response.html StatusOK "form.html" [])
    log := []
    inserted := [] }

/-- Handler `submitForm`: reads the three form fields, inserts the
document, logs an insert error, and renders `success.html`. -/
def submitForm (env : Env) (c : Context) (store : Store) : Result :=
  let fullName := c.PostForm "full_name"
  let email := c.PostForm "email"
  let cpf := c.PostForm "cpf"
  let document : Document := [("full_name", fullName), ("email", email), ("cpf", cpf)]
  let r := InsertOne env store document
  { store := r.1
    outcome := Outcome.responded
      (Response.html StatusOK "success.html"
        [("message", HValue.text "Cadastro feito com sucesso!")])
    log := logIfErr [] r.2
    inserted := [document] }

/-- The loop `for cursor.Next(nil) { ... }` of `displayData` over the
elements the cursor has left: decode, log a decode error, append. -/
def displayDataLoop : List Stored → List Document → List String → List Document × List String
  | [], data, log => (data, log)
  | x :: rest, data, log =>
      let r := DecodeM x
      displayDataLoop rest (data ++ [r.1]) (logIfErr log r.2)

/-- Handler `displayData`: finds every document, logs a find error, walks
the cursor and renders `data.html`.  With a nil cursor the first
`cursor.Next(nil)` panics. -/
def displayData (env : Env) (_c : Context) (store : Store) : Result :=
  let f := Find env store
  let log := logIfErr [] f.2
  match f.1 with
  | none =>
      { store := store, outcome := Outcome.panicked nilDereference, log := log, inserted := [] }
  | some cursor =>
      let r := displayDataLoop cursor.batch [] log
      { store := store
        outcome := Outcome.responded (Response.html StatusOK "data.html" [("data", HValue.docs r.1)])
        log := r.2
        inserted := [] }

/-- The loop `for cursor.Next(nil) { ... }` of `userDashboard`. -/
def userDashboardLoop : List Stored → List Row → List String → List Row × List String
  | [], bloodPressureData, log => (bloodPressureData, log)
  | x :: rest, bloodPressureData, log =>
      let r := DecodeRow x
      userDashboardLoop rest (bloodPressureData ++ [r.1]) (logIfErr log r.2)

/-- Handler `userDashboard`: finds every document, logs a find error,
decodes each element into the three-field struct and renders
`dashboard.html`.  With a nil cursor the first `cursor.Next(nil)` panics. -/
def userDashboard (env : Env) (_c : Context) (store : Store) : Result :=
  let f := Find env store
  let log := logIfErr [] f.2
  match f.1 with
  | none =>
      { store := store, outcome := Outcome.panicked nilDereference, log := log, inserted := [] }
  | some cursor =>
      let r := userDashboardLoop cursor.batch [] log
      { store := store
        outcome := Outcome.responded
          (Response.html StatusOK "dashboard.html" [("bloodPressureData", HValue.rows r.1)])
        log := r.2
        inserted := [] }

/-- Handler `submitBloodPressureData`: reads the two form fields, inserts
the document, logs an insert error, and redirects to `/dashboard`. -/
def submitBloodPressureData (env : Env) (c : Context) (store : Store) : Result :=
  let systolicPressure := c.PostForm "systolicPressure"
  let diastolicPressure := c.PostForm "diastolicPressure"
  let document : Document :=
    [("systolic_pressure", systolicPressure), ("diastolic_pressure", diastolicPressure)]
  let r := InsertOne env store document
  { store := r.1
    outcome := Outcome.responded (Response.redirect StatusSeeOther "/dashboard")
    log := logIfErr [] r.2
    inserted := [document] }

/-! ## The router of `main` -/

/-- The five routes `main` registers. -/
inductive Route where
  | root
  | submit
  | data
  | dashboard
  | dashboardSubmit
deriving DecidableEq, Repr

/-- The handler `main` binds to each route. -/
def Route.handler : Route → Env → Context → Store → Result
  | Route.root => showForm
  | Route.submit => submitForm
  | Route.data => displayData
  | Route.dashboard => userDashboard
  | Route.dashboardSubmit => submitBloodPressureData

/-- One request: the route it hits, its body, and what the driver does
with the call it makes. -/
structure Request where
  route : Route
  c : Context
  env : Env
deriving DecidableEq, Repr

/-- The router of `gin.Default()`: runs the handler under the recovery
middleware, which answers a panic with status 500 and keeps serving. -/
def serve (q : Request) (store : Store) : Result :=
  let r := q.route.handler q.env q.c store
  match r.outcome with
  | Outcome.responded _ => r
  | Outcome.panicked _ =>
      { r with outcome := Outcome.responded (Response.status StatusInternalServerError) }

/-- The collection after serving the requests one after the other. -/
def run : List Request → Store → Store
  | [], store => store
  | q :: rest, store => run rest (serve q store).store

/-! ## The record shapes of the data model -/

/-- The field names of the record shape `PatientRecord`. -/
def PatientRecord : List String := ["full_name", "email", "cpf"]

/-- The field names of the record shape `BloodPressureRecord`. -/
def BloodPressureRecord : List String := ["date", "systolic_pressure", "diastolic_pressure"]

/-- A document has a shape when its keys are exactly the fields of the
shape: every key is a field and every field is a key. -/
def hasShape (shape : List String) (d : Document) : Prop :=
  (∀ k ∈ d.keys, k ∈ shape) ∧ (∀ k ∈ shape, k ∈ d.keys)

instance (shape : List String) (d : Document) : Decidable (hasShape shape d) := by
  unfold hasShape
  infer_instance

/-- A document belongs to a record shape when every key it has is a field
of the shape; a field of the shape that the document lacks (the `date` no
handler writes) is read back as the empty string. -/
def belongsTo (shape : List String) (d : Document) : Prop :=
  ∀ k ∈ d.keys, k ∈ shape

instance (shape : List String) (d : Document) : Decidable (belongsTo shape d) := by
  unfold belongsTo
  infer_instance

/-- The store-shape invariant: every element is a document that belongs to
exactly one of the two record shapes `PatientRecord` and
`BloodPressureRecord`. -/
def ShapeInvariant (store : Store) : Prop :=
  ∀ x ∈ store, ∃ d, x = Stored.doc d ∧
    ((belongsTo PatientRecord d ∧ ¬ belongsTo BloodPressureRecord d)
      ∨ (belongsTo BloodPressureRecord d ∧ ¬ belongsTo PatientRecord d))

/-! ## Lemmas on the two cursor loops and on the router -/

theorem displayDataLoop_fst (xs : List Stored) (data : List Document) (log : List String) :
    (displayDataLoop xs data log).1 = data ++ xs.map (fun x => (DecodeM x).1) := by
  induction xs generalizing data log with
  | nil => simp [displayDataLoop]
  | cons x rest ih => simp [displayDataLoop, ih]

theorem userDashboardLoop_fst (xs : List Stored) (rows : List Row) (log : List String) :
    (userDashboardLoop xs rows log).1 = rows ++ xs.map (fun x => (DecodeRow x).1) := by
  induction xs generalizing rows log with
  | nil => simp [userDashboardLoop]
  | cons x rest ih => simp [userDashboardLoop, ih]

theorem displayData_outcome_of_find (env : Env) (c : Context) (store : Store)
    (hfind : env.findErr = none) :
    (displayData env c store).outcome = Outcome.responded
      (Response.html 200 "data.html"
        [("data", HValue.docs (store.map (fun x => (DecodeM x).1)))]) := by
  simp [displayData, Find, hfind, displayDataLoop_fst, StatusOK]

theorem userDashboard_outcome_of_find (env : Env) (c : Context) (store : Store)
    (hfind : env.findErr = none) :
    (userDashboard env c store).outcome = Outcome.responded
      (Response.html 200 "dashboard.html"
        [("bloodPressureData", HValue.rows (store.map (fun x => (DecodeRow x).1)))]) := by
  simp [userDashboard, Find, hfind, userDashboardLoop_fst, StatusOK]

theorem serve_store (q : Request) (store : Store) :
    (serve q store).store = (q.route.handler q.env q.c store).store := by
  unfold serve
  dsimp only
  split <;> rfl

theorem handler_store_cases (r : Route) (env : Env) (c : Context) (store : Store) :
    (r.handler env c store).store = store
    ∨ (r.handler env c store).store = store ++
        [Stored.doc [("full_name", c.PostForm "full_name"), ("email", c.PostForm "email"),
          ("cpf", c.PostForm "cpf")]]
    ∨ (r.handler env c store).store = store ++
        [Stored.doc [("systolic_pressure", c.PostForm "systolicPressure"),
          ("diastolic_pressure", c.PostForm "diastolicPressure")]] := by
  cases r
  · left; rfl
  · cases h : env.insertErr with
    | none => right; left; simp [Route.handler, submitForm, InsertOne, h]
    | some e => left; simp [Route.handler, submitForm, InsertOne, h]
  · left
    cases h : env.findErr <;> simp [Route.handler, displayData, Find, h]
  · left
    cases h : env.findErr <;> simp [Route.handler, userDashboard, Find, h]
  · cases h : env.insertErr with
    | none => right; right; simp [Route.handler, submitBloodPressureData, InsertOne, h]
    | some e => left; simp [Route.handler, submitBloodPressureData, InsertOne, h]

theorem shapeInvariant_patient (a b c : String) :
    belongsTo PatientRecord [("full_name", a), ("email", b), ("cpf", c)]
      ∧ ¬ belongsTo BloodPressureRecord [("full_name", a), ("email", b), ("cpf", c)] := by
  constructor
  · simp [belongsTo, PatientRecord, Document.keys]
  · simp [belongsTo, BloodPressureRecord, Document.keys]

theorem shapeInvariant_pressure (a b : String) :
    belongsTo BloodPressureRecord [("systolic_pressure", a), ("diastolic_pressure", b)]
      ∧ ¬ belongsTo PatientRecord [("systolic_pressure", a), ("diastolic_pressure", b)] := by
  constructor
  · simp [belongsTo, BloodPressureRecord, Document.keys]
  · simp [belongsTo, PatientRecord, Document.keys]

theorem shapeInvariant_serve (q : Request) (store : Store) (h : ShapeInvariant store) :
    ShapeInvariant (serve q store).store := by
  rw [serve_store]
  rcases handler_store_cases q.route q.env q.c store with e | e | e <;> rw [e]
  · exact h
  · intro x hx
    rcases List.mem_append.1 hx with hx | hx
    · exact h x hx
    · simp at hx
      exact ⟨_, hx, Or.inl (shapeInvariant_patient _ _ _)⟩
  · intro x hx
    rcases List.mem_append.1 hx with hx | hx
    · exact h x hx
    · simp at hx
      exact ⟨_, hx, Or.inr (shapeInvariant_pressure _ _)⟩

theorem shapeInvariant_run (qs : List Request) (store : Store) (h : ShapeInvariant store) :
    ShapeInvariant (run qs store) := by
  induction qs generalizing store with
  | nil => exact h
  | cons q rest ih => exact ih _ (shapeInvariant_serve q store h)

theorem lookup_eq_none_of_not_mem_keys (d : Document) (k : String) (h : k ∉ d.keys) :
    d.lookup k = none := by
  induction d with
  | nil => rfl
  | cons p rest ih =>
    obtain ⟨k1, v1⟩ := p
    simp only [Document.keys, List.map_cons, List.mem_cons, not_or] at h
    have hne : (k == k1) = false := by simpa using h.1
    simp only [List.lookup, hne]
    exact ih (by simpa [Document.keys] using h.2)

/-! ## The claims -/

/-- C1: a `POST /submit` whose form carries `full_name`, `email` and `cpf`,
on a store where the insert succeeds, leaves the previous store with exactly
one document appended, whose keys are exactly `full_name`, `email`, `cpf`,
bound to the submitted values. -/
theorem submitForm_stores_submitted_document (env : Env) (c : Context) (store : Store)
    (fullName email cpf : String)
    (hins : env.insertErr = none)
    (h1 : c.form.lookup "full_name" = some fullName)
    (h2 : c.form.lookup "email" = some email)
    (h3 : c.form.lookup "cpf" = some cpf) :
    ∃ d : Document,
      (submitForm env c store).store = store ++ [Stored.doc d]
      ∧ d.keys = ["full_name", "email", "cpf"]
      ∧ d.lookup "full_name" = some fullName
      ∧ d.lookup "email" = some email
      ∧ d.lookup "cpf" = some cpf := by
  refine ⟨[("full_name", fullName), ("email", email), ("cpf", cpf)], ?_, ?_, ?_, ?_, ?_⟩
  · simp [submitForm, InsertOne, Context.PostForm, hins, h1, h2, h3]
  · rfl
  · simp [List.lookup]
  · simp [List.lookup]
  · simp [List.lookup]

theorem submitForm_stores_submitted_document_witness :
    (⟨none, none⟩ : Env).insertErr = none
    ∧ List.lookup "full_name"
        [("full_name", "Ana Silva"), ("email", "ana@example.com"), ("cpf", "12345678900")]
      = some "Ana Silva"
    ∧ ∃ d : Document,
      (submitForm ⟨none, none⟩
          ⟨[("full_name", "Ana Silva"), ("email", "ana@example.com"), ("cpf", "12345678900")]⟩
          [Stored.doc [("systolic_pressure", "120"), ("diastolic_pressure", "80")]]).store
        = [Stored.doc [("systolic_pressure", "120"), ("diastolic_pressure", "80")]]
            ++ [Stored.doc d]
      ∧ d.keys = ["full_name", "email", "cpf"]
      ∧ d.lookup "full_name" = some "Ana Silva"
      ∧ d.lookup "email" = some "ana@example.com"
      ∧ d.lookup "cpf" = some "12345678900" :=
  ⟨rfl, by decide,
    submitForm_stores_submitted_document ⟨none, none⟩
      ⟨[("full_name", "Ana Silva"), ("email", "ana@example.com"), ("cpf", "12345678900")]⟩
      [Stored.doc [("systolic_pressure", "120"), ("diastolic_pressure", "80")]]
      "Ana Silva" "ana@example.com" "12345678900" rfl (by decide) (by decide) (by decide)⟩

/-- C2: whatever fields the form of a `POST /submit` lacks, the document
`submitForm` passes to `InsertOne` has the three keys `full_name`, `email`,
`cpf`, each bound to the empty string when the form lacks the field and to
the submitted value when it has it, and the handler responds (no panic). -/
theorem submitForm_absent_fields_empty (env : Env) (c : Context) (store : Store) :
    ∃ d : Document,
      (submitForm env c store).inserted = [d]
      ∧ d.keys = ["full_name", "email", "cpf"]
      ∧ (∀ k ∈ ["full_name", "email", "cpf"],
          (c.form.lookup k = none → d.lookup k = some "")
          ∧ (∀ v, c.form.lookup k = some v → d.lookup k = some v))
      ∧ ∃ r, (submitForm env c store).outcome = Outcome.responded r := by
  refine ⟨_, rfl, rfl, ?_, _, rfl⟩
  intro k hk
  simp only [List.mem_cons, List.mem_singleton, List.not_mem_nil, or_false] at hk
  rcases hk with rfl | rfl | rfl
  · constructor
    · intro h; simp [List.lookup, Context.PostForm, h]
    · intro v h; simp [List.lookup, Context.PostForm, h]
  · constructor
    · intro h; simp [List.lookup, Context.PostForm, h]
    · intro v h; simp [List.lookup, Context.PostForm, h]
  · constructor
    · intro h; simp [List.lookup, Context.PostForm, h]
    · intro v h; simp [List.lookup, Context.PostForm, h]

/-- C3: for every `POST /dashboard/submit` and every store, whether the
insert succeeds or returns an error, `submitBloodPressureData` responds with
status 303 and location `/dashboard`. -/
theorem submitBloodPressureData_always_redirects (env : Env) (c : Context) (store : Store) :
    (submitBloodPressureData env c store).outcome
      = Outcome.responded (Response.redirect 303 "/dashboard") := by
  rfl

/-- C4: when the find succeeds, the list `userDashboard` hands to
`dashboard.html` has one three-field row per stored element, in store order;
the row of a document holds the values bound to `date`, `systolic_pressure`
and `diastolic_pressure`, the empty string standing for an absent field, and
a document with the patient keys yields the row of three empty strings. -/
theorem userDashboard_projects_three_fields (env : Env) (c : Context) (store : Store)
    (hfind : env.findErr = none) :
    ∃ rows : List Row,
      (userDashboard env c store).outcome = Outcome.responded
        (Response.html 200 "dashboard.html" [("bloodPressureData", HValue.rows rows)])
      ∧ rows.length = store.length
      ∧ (∀ (i : Nat) (d : Document), store[i]? = some (Stored.doc d) →
          rows[i]? = some
            ⟨(d.lookup "date").getD "", (d.lookup "systolic_pressure").getD "",
              (d.lookup "diastolic_pressure").getD ""⟩)
      ∧ (∀ (i : Nat) (d : Document), store[i]? = some (Stored.doc d) →
          hasShape PatientRecord d → rows[i]? = some ⟨"", "", ""⟩) := by
  have hrow : ∀ (i : Nat) (d : Document), store[i]? = some (Stored.doc d) →
      (store.map (fun x => (DecodeRow x).1))[i]? = some
        ⟨(d.lookup "date").getD "", (d.lookup "systolic_pressure").getD "",
          (d.lookup "diastolic_pressure").getD ""⟩ := by
    intro i d hi
    rw [List.getElem?_map, hi]
    simp only [Option.map_some', DecodeRow, fieldOf]
    congr 1
    cases d.lookup "date" <;> cases d.lookup "systolic_pressure" <;>
      cases d.lookup "diastolic_pressure" <;> rfl
  refine ⟨store.map (fun x => (DecodeRow x).1),
    userDashboard_outcome_of_find env c store hfind, by simp, hrow, ?_⟩
  intro i d hi hshape
  have hkeys : ∀ k, k ∉ PatientRecord → d.lookup k = none := fun k hk =>
    lookup_eq_none_of_not_mem_keys d k (fun hmem => hk (hshape.1 k hmem))
  rw [hrow i d hi, hkeys "date" (by decide), hkeys "systolic_pressure" (by decide),
    hkeys "diastolic_pressure" (by decide)]
  rfl


theorem userDashboard_projects_three_fields_witness :
    (⟨none, none⟩ : Env).findErr = none
    ∧ ∃ rows : List Row,
      (userDashboard ⟨none, none⟩ ⟨[]⟩
          [Stored.doc [("full_name", "Ana Silva"), ("email", "ana@example.com"),
              ("cpf", "12345678900")],
            Stored.doc [("systolic_pressure", "120"), ("diastolic_pressure", "80")]]).outcome
        = Outcome.responded
            (Response.html 200 "dashboard.html" [("bloodPressureData", HValue.rows rows)])
      ∧ rows.length
        = [Stored.doc [("full_name", "Ana Silva"), ("email", "ana@example.com"),
              ("cpf", "12345678900")],
            Stored.doc [("systolic_pressure", "120"), ("diastolic_pressure", "80")]].length
      ∧ (∀ (i : Nat) (d : Document),
          [Stored.doc [("full_name", "Ana Silva"), ("email", "ana@example.com"),
              ("cpf", "12345678900")],
            Stored.doc [("systolic_pressure", "120"), ("diastolic_pressure", "80")]][i]?
            = some (Stored.doc d) →
          rows[i]? = some
            ⟨(d.lookup "date").getD "", (d.lookup "systolic_pressure").getD "",
              (d.lookup "diastolic_pressure").getD ""⟩)
      ∧ (∀ (i : Nat) (d : Document),
          [Stored.doc [("full_name", "Ana Silva"), ("email", "ana@example.com"),
              ("cpf", "12345678900")],
            Stored.doc [("systolic_pressure", "120"), ("diastolic_pressure", "80")]][i]?
            = some (Stored.doc d) →
          hasShape PatientRecord d → rows[i]? = some ⟨"", "", ""⟩) :=
  ⟨rfl, userDashboard_projects_three_fields ⟨none, none⟩ ⟨[]⟩
    [Stored.doc [("full_name", "Ana Silva"), ("email", "ana@example.com"),
        ("cpf", "12345678900")],
      Stored.doc [("systolic_pressure", "120"), ("diastolic_pressure", "80")]] rfl⟩

/-- C5, as stated, fails: on a store of one document where `Find` returns
an error, `displayData` panics on the nil cursor and hands no list at all to
`data.html`, so no list of as many entries as the store has documents. -/
theorem displayData_count_fails_on_find_error :
    (displayData ⟨none, some "server selection timeout"⟩ ⟨[]⟩
        [Stored.doc [("full_name", "Ana Silva"), ("email", "ana@example.com"),
          ("cpf", "12345678900")]]).outcome = Outcome.panicked nilDereference
    ∧ ¬ ∃ data : List Document,
        (displayData ⟨none, some "server selection timeout"⟩ ⟨[]⟩
          [Stored.doc [("full_name", "Ana Silva"), ("email", "ana@example.com"),
            ("cpf", "12345678900")]]).outcome
          = Outcome.responded (Response.html 200 "data.html" [("data", HValue.docs data)])
        ∧ data.length
          = [Stored.doc [("full_name", "Ana Silva"), ("email", "ana@example.com"),
              ("cpf", "12345678900")]].length := by
  refine ⟨rfl, ?_⟩
  rintro ⟨data, h, _⟩
  simp [displayData, Find] at h

/-- C5, amended: when the find succeeds, the list `displayData` hands to
`data.html` has as many entries as the store has elements, an element whose
decoding fails included; and after a `POST /submit` whose insert succeeds the
list is the one from before with the submitted document appended. -/
theorem displayData_count_of_find (envG envS : Env) (cG cS : Context) (store : Store)
    (hfind : envG.findErr = none) :
    ∃ data : List Document,
      (displayData envG cG store).outcome = Outcome.responded
        (Response.html 200 "data.html" [("data", HValue.docs data)])
      ∧ data.length = store.length
      ∧ (envS.insertErr = none →
          ∃ d : Document,
            (submitForm envS cS store).inserted = [d]
            ∧ (displayData envG cG (submitForm envS cS store).store).outcome
              = Outcome.responded
                  (Response.html 200 "data.html" [("data", HValue.docs (data ++ [d]))])
            ∧ (data ++ [d]).length = data.length + 1) := by
  refine ⟨store.map (fun x => (DecodeM x).1),
    displayData_outcome_of_find envG cG store hfind, by simp, ?_⟩
  intro hins
  refine ⟨_, rfl, ?_, by simp⟩
  rw [displayData_outcome_of_find envG cG _ hfind]
  simp [submitForm, InsertOne, hins, DecodeM]

theorem displayData_count_of_find_witness :
    (⟨none, none⟩ : Env).findErr = none
    ∧ ∃ data : List Document,
      (displayData ⟨none, none⟩ ⟨[]⟩
          [Stored.undecodable "invalid document length",
            Stored.doc [("systolic_pressure", "120"), ("diastolic_pressure", "80")]]).outcome
        = Outcome.responded (Response.html 200 "data.html" [("data", HValue.docs data)])
      ∧ data.length
        = [Stored.undecodable "invalid document length",
            Stored.doc [("systolic_pressure", "120"), ("diastolic_pressure", "80")]].length
      ∧ ((⟨none, none⟩ : Env).insertErr = none →
          ∃ d : Document,
            (submitForm ⟨none, none⟩ ⟨[("full_name", "Ana Silva")]⟩
                [Stored.undecodable "invalid document length",
                  Stored.doc [("systolic_pressure", "120"),
                    ("diastolic_pressure", "80")]]).inserted = [d]
            ∧ (displayData ⟨none, none⟩ ⟨[]⟩
                (submitForm ⟨none, none⟩ ⟨[("full_name", "Ana Silva")]⟩
                  [Stored.undecodable "invalid document length",
                    Stored.doc [("systolic_pressure", "120"),
                      ("diastolic_pressure", "80")]]).store).outcome
              = Outcome.responded
                  (Response.html 200 "data.html" [("data", HValue.docs (data ++ [d]))])
            ∧ (data ++ [d]).length = data.length + 1) :=
  ⟨rfl, displayData_count_of_find ⟨none, none⟩ ⟨none, none⟩ ⟨[]⟩ ⟨[("full_name", "Ana Silva")]⟩
    [Stored.undecodable "invalid document length",
      Stored.doc [("systolic_pressure", "120"), ("diastolic_pressure", "80")]] rfl⟩

/-- C6: round trip of a reading.  When the insert succeeds, a
`POST /dashboard/submit` carrying `systolicPressure = s` and
`diastolicPressure = d` appends exactly one document, whose keys are exactly
`systolic_pressure` and `diastolic_pressure` (no `date`), bound to `s` and
`d`; and a following `GET /dashboard` whose find succeeds lists the rows of
the previous store followed by the row with `date` empty, `s` and `d`. -/
theorem bloodPressure_round_trip (envS envG : Env) (cS cG : Context) (store : Store)
    (s d : String)
    (hins : envS.insertErr = none) (hfind : envG.findErr = none)
    (hs : cS.form.lookup "systolicPressure" = some s)
    (hd : cS.form.lookup "diastolicPressure" = some d) :
    ∃ (doc : Document) (rows : List Row),
      (submitBloodPressureData envS cS store).store = store ++ [Stored.doc doc]
      ∧ doc.keys = ["systolic_pressure", "diastolic_pressure"]
      ∧ doc.lookup "systolic_pressure" = some s
      ∧ doc.lookup "diastolic_pressure" = some d
      ∧ doc.lookup "date" = none
      ∧ (userDashboard envG cG store).outcome = Outcome.responded
          (Response.html 200 "dashboard.html" [("bloodPressureData", HValue.rows rows)])
      ∧ (userDashboard envG cG (submitBloodPressureData envS cS store).store).outcome
          = Outcome.responded
              (Response.html 200 "dashboard.html"
                [("bloodPressureData", HValue.rows (rows ++ [⟨"", s, d⟩]))]) := by
  have hstore : (submitBloodPressureData envS cS store).store
      = store ++ [Stored.doc [("systolic_pressure", s), ("diastolic_pressure", d)]] := by
    simp [submitBloodPressureData, InsertOne, Context.PostForm, hins, hs, hd]
  refine ⟨[("systolic_pressure", s), ("diastolic_pressure", d)],
    store.map (fun x => (DecodeRow x).1), hstore, rfl, ?_, ?_, ?_,
    userDashboard_outcome_of_find envG cG store hfind, ?_⟩
  · simp [List.lookup]
  · simp [List.lookup]
  · simp [List.lookup]
  · rw [userDashboard_outcome_of_find envG cG _ hfind, hstore]
    simp [DecodeRow, fieldOf, List.lookup]

theorem bloodPressure_round_trip_witness :
    (⟨none, none⟩ : Env).insertErr = none
    ∧ (⟨none, none⟩ : Env).findErr = none
    ∧ ∃ (doc : Document) (rows : List Row),
      (submitBloodPressureData ⟨none, none⟩
          ⟨[("systolicPressure", "120"), ("diastolicPressure", "80")]⟩
          [Stored.doc [("full_name", "Ana Silva"), ("email", "ana@example.com"),
            ("cpf", "12345678900")]]).store
        = [Stored.doc [("full_name", "Ana Silva"), ("email", "ana@example.com"),
            ("cpf", "12345678900")]] ++ [Stored.doc doc]
      ∧ doc.keys = ["systolic_pressure", "diastolic_pressure"]
      ∧ doc.lookup "systolic_pressure" = some "120"
      ∧ doc.lookup "diastolic_pressure" = some "80"
      ∧ doc.lookup "date" = none
      ∧ (userDashboard ⟨none, none⟩ ⟨[]⟩
          [Stored.doc [("full_name", "Ana Silva"), ("email", "ana@example.com"),
            ("cpf", "12345678900")]]).outcome
        = Outcome.responded
            (Response.html 200 "dashboard.html" [("bloodPressureData", HValue.rows rows)])
      ∧ (userDashboard ⟨none, none⟩ ⟨[]⟩
          (submitBloodPressureData ⟨none, none⟩
            ⟨[("systolicPressure", "120"), ("diastolicPressure", "80")]⟩
            [Stored.doc [("full_name", "Ana Silva"), ("email", "ana@example.com"),
              ("cpf", "12345678900")]]).store).outcome
        = Outcome.responded
            (Response.html 200 "dashboard.html"
              [("bloodPressureData", HValue.rows (rows ++ [⟨"", "120", "80"⟩]))]) :=
  ⟨rfl, rfl,
    bloodPressure_round_trip ⟨none, none⟩ ⟨none, none⟩
      ⟨[("systolicPressure", "120"), ("diastolicPressure", "80")]⟩ ⟨[]⟩
      [Stored.doc [("full_name", "Ana Silva"), ("email", "ana@example.com"),
        ("cpf", "12345678900")]]
      "120" "80" rfl rfl (by decide) (by decide)⟩


/-- C7, on the code: when `Find` returns an error, `displayData` and
`userDashboard` log it and then panic on the nil cursor; neither renders its
template, and the recovery middleware answers the request with status 500
instead of 200. -/
theorem reading_handlers_panic_on_find_error :
    (displayData ⟨none, some "server selection timeout"⟩ ⟨[]⟩ []).log
      = ["server selection timeout"]
    ∧ (displayData ⟨none, some "server selection timeout"⟩ ⟨[]⟩ []).outcome
      = Outcome.panicked nilDereference
    ∧ (serve ⟨Route.data, ⟨[]⟩, ⟨none, some "server selection timeout"⟩⟩ []).outcome
      = Outcome.responded (Response.status 500)
    ∧ (userDashboard ⟨none, some "server selection timeout"⟩ ⟨[]⟩ []).log
      = ["server selection timeout"]
    ∧ (userDashboard ⟨none, some "server selection timeout"⟩ ⟨[]⟩ []).outcome
      = Outcome.panicked nilDereference
    ∧ (serve ⟨Route.dashboard, ⟨[]⟩, ⟨none, some "server selection timeout"⟩⟩ []).outcome
      = Outcome.responded (Response.status 500) := by
  refine ⟨rfl, rfl, rfl, rfl, rfl, rfl⟩

/-- C8: for every `POST /submit` and every store, whether the insert
succeeds or returns an error, `submitForm` responds with status 200 rendering
`success.html` with the bag holding `message` = "Cadastro feito com
sucesso!"; on an insert error the store is unchanged, the error is logged,
and the response is the one of a successful insert. -/
theorem submitForm_always_success_page (env : Env) (c : Context) (store : Store) :
    (submitForm env c store).outcome = Outcome.responded
      (Response.html 200 "success.html"
        [("message", HValue.text "Cadastro feito com sucesso!")])
    ∧ (∀ e : String, env.insertErr = some e →
        (submitForm env c store).store = store
        ∧ (submitForm env c store).log = [e]
        ∧ (submitForm env c store).outcome
          = (submitForm ⟨none, env.findErr⟩ c store).outcome) := by
  refine ⟨rfl, ?_⟩
  intro e he
  refine ⟨?_, ?_, rfl⟩
  · simp [submitForm, InsertOne, he]
  · simp [submitForm, InsertOne, he, logIfErr]

theorem submitForm_always_success_page_witness :
    (⟨some "write concern error", none⟩ : Env).insertErr = some "write concern error"
    ∧ (submitForm ⟨some "write concern error", none⟩
          ⟨[("full_name", "Ana Silva"), ("email", "ana@example.com"), ("cpf", "12345678900")]⟩
          [Stored.doc [("systolic_pressure", "120"), ("diastolic_pressure", "80")]]).store
        = [Stored.doc [("systolic_pressure", "120"), ("diastolic_pressure", "80")]]
    ∧ (submitForm ⟨some "write concern error", none⟩
          ⟨[("full_name", "Ana Silva"), ("email", "ana@example.com"), ("cpf", "12345678900")]⟩
          [Stored.doc [("systolic_pressure", "120"), ("diastolic_pressure", "80")]]).log
        = ["write concern error"] :=
  ⟨rfl,
    ((submitForm_always_success_page ⟨some "write concern error", none⟩
      ⟨[("full_name", "Ana Silva"), ("email", "ana@example.com"), ("cpf", "12345678900")]⟩
      [Stored.doc [("systolic_pressure", "120"), ("diastolic_pressure", "80")]]).2
        "write concern error" rfl).1,
    ((submitForm_always_success_page ⟨some "write concern error", none⟩
      ⟨[("full_name", "Ana Silva"), ("email", "ana@example.com"), ("cpf", "12345678900")]⟩
      [Stored.doc [("systolic_pressure", "120"), ("diastolic_pressure", "80")]]).2
        "write concern error" rfl).2.1⟩

/-- C9: store-shape invariant.  From the empty store, after any finite
sequence of requests to the five routes, every stored element is a document
that belongs to exactly one of the two record shapes `PatientRecord`
(`full_name`, `email`, `cpf`) and `BloodPressureRecord` (`date`,
`systolic_pressure`, `diastolic_pressure`), told apart by the keys present;
every value is a string, as the type of documents has it. -/
theorem store_shape_invariant (qs : List Request) :
    ShapeInvariant (run qs []) := by
  apply shapeInvariant_run
  intro x hx
  cases hx

/-- C10: the store is append-only.  For every route, request and store
the store before the request is an initial segment of the store after it;
`showForm`, `displayData` and `userDashboard` leave the store unchanged; and
`submitForm` and `submitBloodPressureData` add at most one document. -/
theorem store_append_only (env : Env) (c : Context) (store : Store) :
    (∀ r : Route, store <+: (r.handler env c store).store
        ∧ store <+: (serve ⟨r, c, env⟩ store).store)
    ∧ (showForm env c store).store = store
    ∧ (displayData env c store).store = store
    ∧ (userDashboard env c store).store = store
    ∧ (submitForm env c store).store.length ≤ store.length + 1
    ∧ (submitBloodPressureData env c store).store.length ≤ store.length + 1 := by
  have hpre : ∀ r : Route, store <+: (r.handler env c store).store := by
    intro r
    rcases handler_store_cases r env c store with e | e | e
    · exact e.symm ▸ List.prefix_refl store
    · rw [e]
      exact List.prefix_append store _
    · rw [e]
      exact List.prefix_append store _
  have hlen : ∀ r : Route, (r.handler env c store).store.length ≤ store.length + 1 := by
    intro r
    rcases handler_store_cases r env c store with e | e | e <;> rw [e] <;> simp
  have hget : ∀ r : Route, r = Route.root ∨ r = Route.data ∨ r = Route.dashboard →
      (r.handler env c store).store = store := by
    intro r hr
    rcases hr with rfl | rfl | rfl
    · rfl
    · cases h : env.findErr <;> simp [Route.handler, displayData, Find, h]
    · cases h : env.findErr <;> simp [Route.handler, userDashboard, Find, h]
  refine ⟨fun r => ⟨hpre r, ?_⟩, hget Route.root (Or.inl rfl),
    hget Route.data (Or.inr (Or.inl rfl)), hget Route.dashboard (Or.inr (Or.inr rfl)),
    hlen Route.submit, hlen Route.dashboardSubmit⟩
  rw [serve_store]
  exact hpre r

end Pressao
